import Mathlib

/-!
Shallow embedding of the `WebSocketClient` class from the repository
(frontend websocket client, file `src/unnamed/part_000`).

The client holds two fields: `socket : Socket | null` and
`subscriptions : Map<string, DrawingEventHandler[]>`.  We embed the socket
handle as `Option Socket` where `Socket` carries its `connected` flag
(the transport connects asynchronously: `io(...)` returns a handle whose
`connected` flag becomes true only once the transport-level connect event
fires).  The `Map` is embedded as an ordered association list with unique
keys by construction, matching the insertion-ordered semantics of a
JavaScript `Map`.  Handlers are opaque values of a type parameter `H`.

Each client method is a function from the client state to a new state
paired with a trace of outbound actions (the `io(...)` transport creation,
`socket.disconnect()`, and `socket.emit(event, \x7bdrawing_id\x7d)` calls),
so that ordering claims about the emitted messages can be stated.  The two
inbound-message listeners installed by `connect` (for `drawing_locked` and
`drawing_unlocked`) are embedded as dispatch functions returning the list
of handler invocations in invocation order; the listener bodies read
`this.subscriptions` and call handlers but never assign to the client
fields, so they return the state as given.
-/

namespace DrawingWS

/-- Transport handle returned by `io(...)`; `connected` mirrors the
socket.io `socket.connected` flag. -/
structure Socket where
  connected : Bool
deriving DecidableEq

/-- Discriminator of the `DrawingEventData.type` field. -/
inductive EvType where
  | locked
  | unlocked
deriving DecidableEq

/-- The `DrawingEventData` payload delivered to subscribed handlers
(`type`, `drawing_id`, optional `locked_by`). -/
structure DrawingEventData where
  type : EvType
  drawing_id : String
  locked_by : Option String
deriving DecidableEq

/-- Outbound effects performed by the client: creating a transport via
`io(...)`, closing it via `socket.disconnect()`, and
`socket.emit(event, \x7b drawing_id \x7d)` messages to the server. -/
inductive Action where
  | ioConnect
  | socketDisconnect
  | emit (event : String) (drawing_id : String)
deriving DecidableEq

/-- State of a `WebSocketClient` instance: the `socket` field and the
`subscriptions` map (ordered association list keyed by drawing id). -/
structure ClientState (H : Type) where
  socket : Option Socket
  subscriptions : List (String × List H)
deriving DecidableEq

/-- `Map.get`: first (and, on map-built lists, only) entry for a key. -/
def mapGet {H : Type} (m : List (String × List H)) (k : String) :
    Option (List H) :=
  match m with
  | [] => none
  | (k', v) :: rest => if k' = k then some v else mapGet rest k

/-- `Map.has`. -/
def mapHas {H : Type} (m : List (String × List H)) (k : String) : Bool :=
  (mapGet m k).isSome

/-- `Map.set`: replace the entry for `k` in place, or append a new one. -/
def mapSet {H : Type} (m : List (String × List H)) (k : String)
    (v : List H) : List (String × List H) :=
  match m with
  | [] => [(k, v)]
  | (k', v') :: rest =>
      if k' = k then (k, v) :: rest else (k', v') :: mapSet rest k v

/-- `Map.delete`: remove the entry for `k` (a `Map` holds at most one). -/
def mapDelete {H : Type} (m : List (String × List H)) (k : String) :
    List (String × List H) :=
  match m with
  | [] => []
  | (k', v') :: rest =>
      if k' = k then rest else (k', v') :: mapDelete rest k

/-- In-place `this.subscriptions.get(k)!.push(h)`: append `h` to the
array stored at key `k`. -/
def mapPush {H : Type} (m : List (String × List H)) (k : String) (h : H) :
    List (String × List H) :=
  match m with
  | [] => []
  | (k', v) :: rest =>
      if k' = k then (k', v ++ [h]) :: rest
      else (k', v) :: mapPush rest k h

namespace WebSocketClient

/-- Embedding of `isConnected()`: `this.socket?.connected ?? false`. -/
def isConnected {H : Type} (s : ClientState H) : Bool :=
  match s.socket with
  | some sk => sk.connected
  | none => false

/-- Embedding of `connect()`: if `this.socket?.connected` return;
otherwise assign `this.socket = io(...)` (a fresh handle, not yet
connected) and install the event listeners. -/
def connect {H : Type} (s : ClientState H) : ClientState H × List Action :=
  match s.socket with
  | some sk =>
      if sk.connected then (s, [])
      else ({ s with socket := some ⟨false⟩ }, [Action.ioConnect])
  | none => ({ s with socket := some ⟨false⟩ }, [Action.ioConnect])

/-- Embedding of `disconnect()`: if a socket handle exists, call
`socket.disconnect()`, set `this.socket = null`, and
`this.subscriptions.clear()`; otherwise do nothing. -/
def disconnect {H : Type} (s : ClientState H) :
    ClientState H × List Action :=
  match s.socket with
  | some _ => (⟨none, []⟩, [Action.socketDisconnect])
  | none => (s, [])

/-- Registry update performed by `subscribeDrawing`:
`if (!subscriptions.has(id)) subscriptions.set(id, []);
subscriptions.get(id)!.push(handler);`. -/
def registerHandler {H : Type} (m : List (String × List H)) (d : String)
    (h : H) : List (String × List H) :=
  mapPush (if mapHas m d then m else mapSet m d []) d h

/-- Embedding of `subscribeDrawing(drawingId, handler)`: if
`!this.socket?.connected`, call `connect()`; register the handler; then,
if a socket handle exists, `emit('subscribe_drawing', \x7b drawing_id \x7d)`. -/
def subscribeDrawing {H : Type} (s : ClientState H) (d : String) (h : H) :
    ClientState H × List Action :=
  let r1 := if isConnected s then (s, ([] : List Action)) else connect s
  let s2 : ClientState H :=
    { r1.1 with subscriptions := registerHandler r1.1.subscriptions d h }
  let emits : List Action :=
    match s2.socket with
    | some _ => [Action.emit "subscribe_drawing" d]
    | none => []
  (s2, r1.2 ++ emits)

/-- Embedding of `unsubscribeDrawing(drawingId)`:
`this.subscriptions.delete(drawingId)`; then, if a socket handle exists,
`emit('unsubscribe_drawing', \x7b drawing_id \x7d)`. -/
def unsubscribeDrawing {H : Type} (s : ClientState H) (d : String) :
    ClientState H × List Action :=
  let emits : List Action :=
    match s.socket with
    | some _ => [Action.emit "unsubscribe_drawing" d]
    | none => []
  ({ s with subscriptions := mapDelete s.subscriptions d }, emits)

/-- Embedding of the `drawing_locked` listener installed by `connect`:
look up the handler list for the incoming `drawing_id`; if present,
invoke each handler in order with
`\x7b type: 'locked', drawing_id, locked_by \x7d`.  The listener body never
assigns to the client fields, so the state is returned unchanged; the
second component lists the handler invocations in invocation order. -/
def onDrawingLocked {H : Type} (s : ClientState H) (d u : String) :
    ClientState H × List (H × DrawingEventData) :=
  match mapGet s.subscriptions d with
  | some handlers =>
      (s, handlers.map fun h => (h, ⟨EvType.locked, d, some u⟩))
  | none => (s, [])

/-- Embedding of the `drawing_unlocked` listener installed by `connect`:
same lookup, invoking each handler with
`\x7b type: 'unlocked', drawing_id \x7d` (no `locked_by`). -/
def onDrawingUnlocked {H : Type} (s : ClientState H) (d : String) :
    ClientState H × List (H × DrawingEventData) :=
  match mapGet s.subscriptions d with
  | some handlers =>
      (s, handlers.map fun h => (h, ⟨EvType.unlocked, d, none⟩))
  | none => (s, [])

end WebSocketClient

/-- Client API calls plus the transport-level connectivity events that the
socket.io runtime delivers asynchronously (they flip the `connected` flag
of the existing handle without touching the registry). -/
inductive Op (H : Type) where
  | connect
  | disconnect
  | subscribe (d : String) (h : H)
  | unsubscribe (d : String)
  | transportConnected
  | transportDisconnected

/-- One step of the client, ignoring the outbound-action trace. -/
def applyOp {H : Type} (s : ClientState H) : Op H → ClientState H
  | Op.connect => (WebSocketClient.connect s).1
  | Op.disconnect => (WebSocketClient.disconnect s).1
  | Op.subscribe d h => (WebSocketClient.subscribeDrawing s d h).1
  | Op.unsubscribe d => (WebSocketClient.unsubscribeDrawing s d).1
  | Op.transportConnected =>
      { s with socket := s.socket.map fun _ => ⟨true⟩ }
  | Op.transportDisconnected =>
      { s with socket := s.socket.map fun _ => ⟨false⟩ }

/-- Initial state of the module-level singleton: no socket handle and an
empty subscription map. -/
def initState {H : Type} : ClientState H := ⟨none, []⟩

/-- Run a sequence of operations from the initial state. -/
def runOps {H : Type} (ops : List (Op H)) : ClientState H :=
  ops.foldl applyOp initState

/-- States reachable from the initial state. -/
def Reachable {H : Type} (s : ClientState H) : Prop :=
  ∃ ops : List (Op H), runOps ops = s

/-! Helper lemmas about the association-list embedding of `Map`. -/

theorem mapGet_eq_none_iff {H : Type} (m : List (String × List H))
    (k : String) : mapGet m k = none ↔ k ∉ m.map Prod.fst := by
  induction m with
  | nil => simp [mapGet]
  | cons p rest ih =>
      obtain ⟨k', v⟩ := p
      by_cases hk : k' = k
      · subst hk
        simp [mapGet]
      · simp [mapGet, hk, ih, Ne.symm hk]

theorem mapDelete_of_get_none {H : Type} (m : List (String × List H))
    (k : String) (hnone : mapGet m k = none) : mapDelete m k = m := by
  induction m with
  | nil => rfl
  | cons p rest ih =>
      obtain ⟨k', v⟩ := p
      by_cases hk : k' = k
      · subst hk
        simp [mapGet] at hnone
      · simp [mapGet, hk] at hnone
        simp [mapDelete, hk, ih hnone]

theorem keys_mapPush {H : Type} (m : List (String × List H)) (k : String)
    (h : H) : (mapPush m k h).map Prod.fst = m.map Prod.fst := by
  induction m with
  | nil => rfl
  | cons p rest ih =>
      obtain ⟨k', v⟩ := p
      by_cases hk : k' = k
      · simp [mapPush, hk]
      · simp [mapPush, hk, ih]

theorem keys_mapSet_of_get_none {H : Type} (m : List (String × List H))
    (k : String) (v : List H) (hnone : mapGet m k = none) :
    (mapSet m k v).map Prod.fst = m.map Prod.fst ++ [k] := by
  induction m with
  | nil => rfl
  | cons p rest ih =>
      obtain ⟨k', v'⟩ := p
      by_cases hk : k' = k
      · subst hk
        simp [mapGet] at hnone
      · simp [mapGet, hk] at hnone
        simp [mapSet, hk, ih hnone]

theorem mapGet_mapPush_of_get_some {H : Type} (m : List (String × List H))
    (k : String) (h : H) (v : List H) (hsome : mapGet m k = some v) :
    mapGet (mapPush m k h) k = some (v ++ [h]) := by
  induction m with
  | nil => simp [mapGet] at hsome
  | cons p rest ih =>
      obtain ⟨k', v'⟩ := p
      by_cases hk : k' = k
      · subst hk
        simp [mapGet] at hsome
        subst hsome
        simp [mapPush, mapGet]
      · simp [mapGet, hk] at hsome
        simp [mapPush, mapGet, hk, ih hsome]

theorem mapGet_mapPush_mapSet_of_get_none {H : Type}
    (m : List (String × List H)) (k : String) (h : H)
    (hnone : mapGet m k = none) :
    mapGet (mapPush (mapSet m k []) k h) k = some [h] := by
  induction m with
  | nil => simp [mapSet, mapPush, mapGet]
  | cons p rest ih =>
      obtain ⟨k', v'⟩ := p
      by_cases hk : k' = k
      · subst hk
        simp [mapGet] at hnone
      · simp [mapGet, hk] at hnone
        simp [mapSet, mapPush, mapGet, hk, ih hnone]

theorem mapGet_registerHandler {H : Type} (m : List (String × List H))
    (d : String) (h : H) :
    mapGet (WebSocketClient.registerHandler m d h) d
      = some ((mapGet m d).getD [] ++ [h]) := by
  unfold WebSocketClient.registerHandler
  cases hget : mapGet m d with
  | none =>
      simp [mapHas, hget, mapGet_mapPush_mapSet_of_get_none m d h hget]
  | some v =>
      simp [mapHas, hget, mapGet_mapPush_of_get_some m d h v hget]

theorem keys_registerHandler_nodup {H : Type} (m : List (String × List H))
    (d : String) (h : H) (hnd : (m.map Prod.fst).Nodup) :
    ((WebSocketClient.registerHandler m d h).map Prod.fst).Nodup := by
  unfold WebSocketClient.registerHandler
  cases hget : mapGet m d with
  | none =>
      rw [mapHas, hget]
      simp only [Option.isSome_none, Bool.false_eq_true, if_false]
      rw [keys_mapPush, keys_mapSet_of_get_none m d [] hget]
      have hmem : d ∉ m.map Prod.fst := (mapGet_eq_none_iff m d).mp hget
      simpa [List.nodup_append] using And.intro hnd hmem
  | some v =>
      rw [mapHas, hget]
      simp only [Option.isSome_some, if_true]
      rw [keys_mapPush]
      exact hnd

theorem mapGet_mapDelete_self {H : Type} (m : List (String × List H))
    (k : String) (hnd : (m.map Prod.fst).Nodup) :
    mapGet (mapDelete m k) k = none := by
  induction m with
  | nil => rfl
  | cons p rest ih =>
      obtain ⟨k', v⟩ := p
      simp only [List.map_cons, List.nodup_cons] at hnd
      by_cases hk : k' = k
      · subst hk
        rw [mapDelete]
        simp only [if_true]
        exact (mapGet_eq_none_iff rest k').mpr hnd.1
      · rw [mapDelete]
        simp only [hk, if_false]
        rw [mapGet]
        simp only [hk, if_false]
        exact ih hnd.2

/-! Helper lemmas about the client operations. -/

theorem connect_subscriptions {H : Type} (s : ClientState H) :
    (WebSocketClient.connect s).1.subscriptions = s.subscriptions := by
  unfold WebSocketClient.connect
  cases s.socket with
  | none => rfl
  | some sk => by_cases hc : sk.connected <;> simp [hc]

theorem subscribeDrawing_subscriptions {H : Type} (s : ClientState H)
    (d : String) (h : H) :
    (WebSocketClient.subscribeDrawing s d h).1.subscriptions
      = WebSocketClient.registerHandler s.subscriptions d h := by
  unfold WebSocketClient.subscribeDrawing
  by_cases hc : WebSocketClient.isConnected s
  · simp [hc]
  · simp [hc, connect_subscriptions]

theorem subscribeDrawing_socket_isSome {H : Type} (s : ClientState H)
    (d : String) (h : H) :
    ((WebSocketClient.subscribeDrawing s d h).1.socket).isSome = true := by
  unfold WebSocketClient.subscribeDrawing
  by_cases hc : WebSocketClient.isConnected s
  · simp only [hc, if_true]
    unfold WebSocketClient.isConnected at hc
    cases hsk : s.socket with
    | none => rw [hsk] at hc; simp at hc
    | some sk => simp [hsk]
  · simp only [hc, Bool.false_eq_true, if_false]
    unfold WebSocketClient.connect
    cases hsk : s.socket with
    | none => simp
    | some sk =>
        unfold WebSocketClient.isConnected at hc
        rw [hsk] at hc
        simp only [Bool.not_eq_true] at hc
        simp [hc]

theorem subscribeDrawing_actions {H : Type} (s : ClientState H)
    (d : String) (h : H) :
    (WebSocketClient.subscribeDrawing s d h).2
      = (if WebSocketClient.isConnected s then [] else [Action.ioConnect])
          ++ [Action.emit "subscribe_drawing" d] := by
  obtain ⟨sock, subs⟩ := s
  unfold WebSocketClient.subscribeDrawing WebSocketClient.connect
    WebSocketClient.isConnected
  cases sock with
  | none => simp
  | some sk => by_cases hc : sk.connected <;> simp [hc]

theorem socketInv_applyOp {H : Type} (s : ClientState H) (op : Op H)
    (hinv : s.socket = none → s.subscriptions = []) :
    (applyOp s op).socket = none → (applyOp s op).subscriptions = [] := by
  cases op with
  | connect =>
      obtain ⟨sock, subs⟩ := s
      unfold applyOp WebSocketClient.connect
      cases sock with
      | none => simp
      | some sk =>
          by_cases hc : sk.connected
          · simp [hc]
          · simp [hc]
  | disconnect =>
      obtain ⟨sock, subs⟩ := s
      unfold applyOp WebSocketClient.disconnect
      cases sock with
      | none => simpa using hinv
      | some sk => simp
  | subscribe d h =>
      intro hn
      have hsome := subscribeDrawing_socket_isSome s d h
      unfold applyOp at hn
      rw [hn] at hsome
      simp at hsome
  | unsubscribe d =>
      obtain ⟨sock, subs⟩ := s
      show sock = none → mapDelete subs d = []
      intro hn
      have hsubs : subs = [] := hinv hn
      subst hsubs
      rfl
  | transportConnected =>
      obtain ⟨sock, subs⟩ := s
      unfold applyOp
      cases sock with
      | none => simpa using hinv
      | some sk => simp
  | transportDisconnected =>
      obtain ⟨sock, subs⟩ := s
      unfold applyOp
      cases sock with
      | none => simpa using hinv
      | some sk => simp

theorem socketInv_foldl {H : Type} (ops : List (Op H)) (s : ClientState H)
    (hinv : s.socket = none → s.subscriptions = []) :
    (ops.foldl applyOp s).socket = none →
      (ops.foldl applyOp s).subscriptions = [] := by
  induction ops generalizing s with
  | nil => exact hinv
  | cons op rest ih => exact ih _ (socketInv_applyOp s op hinv)

theorem reachable_socketInv {H : Type} (s : ClientState H)
    (hr : Reachable s) : s.socket = none → s.subscriptions = [] := by
  obtain ⟨ops, rfl⟩ := hr
  exact socketInv_foldl ops initState (fun _ => rfl)

/-- C1: dispatching an inbound `drawing_locked` message for a drawing id
with at least one registered handler invokes every handler registered for
that id exactly once, in registration (insertion) order, each with the
event carrying type `locked`, the same drawing id, and the provided
`locked_by` user. -/
theorem locked_dispatch_invokes_each_handler_once_in_order {H : Type}
    (s : ClientState H) (d u : String) (hs : List H)
    (hget : mapGet s.subscriptions d = some hs) (_hne : hs ≠ []) :
    (WebSocketClient.onDrawingLocked s d u).2
      = hs.map (fun h => (h, ⟨EvType.locked, d, some u⟩)) := by
  unfold WebSocketClient.onDrawingLocked
  rw [hget]

theorem locked_dispatch_invokes_each_handler_once_in_order_witness :
    mapGet (([("D", [0, 1])] : List (String × List Nat))) "D" = some [0, 1]
    ∧ ([0, 1] : List Nat) ≠ []
    ∧ (WebSocketClient.onDrawingLocked
          (⟨some ⟨true⟩, [("D", [0, 1])]⟩ : ClientState Nat) "D" "alice").2
        = [0, 1].map (fun h => (h, ⟨EvType.locked, "D", some "alice"⟩)) :=
  ⟨by decide, by decide,
    locked_dispatch_invokes_each_handler_once_in_order
      (⟨some ⟨true⟩, [("D", [0, 1])]⟩ : ClientState Nat) "D" "alice" [0, 1]
      (by decide) (by decide)⟩

/-- C3: every handler invoked while dispatching an inbound locked or
unlocked message for drawing id `d` is one of the handlers registered
under `d`, and the event it receives carries `drawing_id = d`; a handler
is never invoked for a drawing id other than the one it was registered
against, in any client state. -/
theorem handler_invoked_only_for_registered_id {H : Type}
    (s : ClientState H) (d u : String) (p : H × DrawingEventData)
    (hmem : p ∈ (WebSocketClient.onDrawingLocked s d u).2
      ∨ p ∈ (WebSocketClient.onDrawingUnlocked s d).2) :
    p.2.drawing_id = d ∧ p.1 ∈ (mapGet s.subscriptions d).getD [] := by
  cases hmem with
  | inl hl =>
      unfold WebSocketClient.onDrawingLocked at hl
      cases hget : mapGet s.subscriptions d with
      | none => rw [hget] at hl; simp at hl
      | some handlers =>
          rw [hget] at hl
          simp only [List.mem_map] at hl
          obtain ⟨a, ha, rfl⟩ := hl
          exact ⟨rfl, by simpa [hget] using ha⟩
  | inr hr =>
      unfold WebSocketClient.onDrawingUnlocked at hr
      cases hget : mapGet s.subscriptions d with
      | none => rw [hget] at hr; simp at hr
      | some handlers =>
          rw [hget] at hr
          simp only [List.mem_map] at hr
          obtain ⟨a, ha, rfl⟩ := hr
          exact ⟨rfl, by simpa [hget] using ha⟩

theorem handler_invoked_only_for_registered_id_witness :
    (((5, ⟨EvType.locked, "D", some "u"⟩) : Nat × DrawingEventData)
        ∈ (WebSocketClient.onDrawingLocked
            (⟨some ⟨true⟩, [("D", [5])]⟩ : ClientState Nat) "D" "u").2
      ∨ ((5, ⟨EvType.locked, "D", some "u"⟩) : Nat × DrawingEventData)
        ∈ (WebSocketClient.onDrawingUnlocked
            (⟨some ⟨true⟩, [("D", [5])]⟩ : ClientState Nat) "D").2)
    ∧ ((((5, ⟨EvType.locked, "D", some "u"⟩) :
          Nat × DrawingEventData)).2.drawing_id = "D"
        ∧ (((5, ⟨EvType.locked, "D", some "u"⟩) :
            Nat × DrawingEventData)).1
          ∈ (mapGet ([("D", [5])] : List (String × List Nat)) "D").getD []) :=
  ⟨Or.inl (by decide),
    handler_invoked_only_for_registered_id
      (⟨some ⟨true⟩, [("D", [5])]⟩ : ClientState Nat) "D" "u"
      (5, ⟨EvType.locked, "D", some "u"⟩) (Or.inl (by decide))⟩

/-- C4: dispatching a `drawing_locked` or `drawing_unlocked` message for a
drawing id with no entry in the registry invokes no handler, changes no
client state, and raises no error: the event is silently dropped. -/
theorem dispatch_without_subscribers_is_silent_drop {H : Type}
    (s : ClientState H) (d u : String)
    (hnone : mapGet s.subscriptions d = none) :
    WebSocketClient.onDrawingLocked s d u = (s, [])
    ∧ WebSocketClient.onDrawingUnlocked s d = (s, []) := by
  constructor
  · unfold WebSocketClient.onDrawingLocked
    rw [hnone]
  · unfold WebSocketClient.onDrawingUnlocked
    rw [hnone]

theorem dispatch_without_subscribers_is_silent_drop_witness :
    mapGet (([] : List (String × List Nat))) "D" = none
    ∧ (WebSocketClient.onDrawingLocked (initState : ClientState Nat)
          "D" "alice" = (initState, [])
        ∧ WebSocketClient.onDrawingUnlocked (initState : ClientState Nat)
            "D" = (initState, [])) :=
  ⟨rfl, dispatch_without_subscribers_is_silent_drop
    (initState : ClientState Nat) "D" "alice" rfl⟩

/-- C5: `subscribeDrawing(D, H)` appends the handler to the registry list
for `D` (creating the list if absent) and emits `subscribe_drawing` with
payload `drawing_id = D`; when the client is not connected, the `io(...)`
connection establishment performed by `connect()` comes before that emit
in the outbound-action trace, and when already connected the emit is the
only outbound action. -/
theorem subscribe_connects_before_notifying_server {H : Type}
    (s : ClientState H) (d : String) (h : H) :
    mapGet (WebSocketClient.subscribeDrawing s d h).1.subscriptions d
      = some ((mapGet s.subscriptions d).getD [] ++ [h])
    ∧ (WebSocketClient.subscribeDrawing s d h).2
      = (if WebSocketClient.isConnected s then [] else [Action.ioConnect])
          ++ [Action.emit "subscribe_drawing" d] :=
  ⟨by rw [subscribeDrawing_subscriptions]; exact mapGet_registerHandler _ d h,
    subscribeDrawing_actions s d h⟩

/-- C8: calling `connect()` when already connected is a no-op: the state
(socket handle and registry) is unchanged and no outbound action, in
particular no second `io(...)` transport creation, is performed. -/
theorem connect_is_noop_when_connected {H : Type} (s : ClientState H)
    (hc : WebSocketClient.isConnected s = true) :
    WebSocketClient.connect s = (s, []) := by
  unfold WebSocketClient.isConnected at hc
  unfold WebSocketClient.connect
  cases hsk : s.socket with
  | none => rw [hsk] at hc; simp at hc
  | some sk =>
      rw [hsk] at hc
      have hc' : sk.connected = true := hc
      simp [hc']

theorem connect_is_noop_when_connected_witness :
    WebSocketClient.isConnected
        (⟨some ⟨true⟩, [("D", [7])]⟩ : ClientState Nat) = true
    ∧ WebSocketClient.connect
        (⟨some ⟨true⟩, [("D", [7])]⟩ : ClientState Nat)
      = ((⟨some ⟨true⟩, [("D", [7])]⟩ : ClientState Nat), []) :=
  ⟨by decide, connect_is_noop_when_connected
    (⟨some ⟨true⟩, [("D", [7])]⟩ : ClientState Nat) (by decide)⟩

/-- C2: after subscribing handlers `h1` and `h2` to drawing id `d` and
then calling `unsubscribeDrawing(d)`, the registry has no entry for `d`
(both handlers are removed), and dispatching a subsequent locked or
unlocked message for `d` invokes no handler.  The map-key uniqueness that
a JavaScript `Map` guarantees structurally is carried as the `Nodup`
hypothesis on the starting state. -/
theorem unsubscribe_removes_all_handlers {H : Type} (s : ClientState H)
    (d u : String) (h1 h2 : H)
    (hnd : (s.subscriptions.map Prod.fst).Nodup) :
    mapGet ((WebSocketClient.unsubscribeDrawing
        ((WebSocketClient.subscribeDrawing
          ((WebSocketClient.subscribeDrawing s d h1).1) d h2).1)
        d).1).subscriptions d = none
    ∧ (WebSocketClient.onDrawingLocked
        ((WebSocketClient.unsubscribeDrawing
          ((WebSocketClient.subscribeDrawing
            ((WebSocketClient.subscribeDrawing s d h1).1) d h2).1)
          d).1) d u).2 = []
    ∧ (WebSocketClient.onDrawingUnlocked
        ((WebSocketClient.unsubscribeDrawing
          ((WebSocketClient.subscribeDrawing
            ((WebSocketClient.subscribeDrawing s d h1).1) d h2).1)
          d).1) d).2 = [] := by
  have hnd2 : (((WebSocketClient.subscribeDrawing
      ((WebSocketClient.subscribeDrawing s d h1).1)
        d h2).1.subscriptions).map Prod.fst).Nodup := by
    rw [subscribeDrawing_subscriptions, subscribeDrawing_subscriptions]
    exact keys_registerHandler_nodup _ d h2
      (keys_registerHandler_nodup _ d h1 hnd)
  have hget : mapGet ((WebSocketClient.unsubscribeDrawing
      ((WebSocketClient.subscribeDrawing
        ((WebSocketClient.subscribeDrawing s d h1).1) d h2).1)
      d).1).subscriptions d = none :=
    mapGet_mapDelete_self _ d hnd2
  refine ⟨hget, ?_, ?_⟩
  · simp [WebSocketClient.onDrawingLocked, hget]
  · simp [WebSocketClient.onDrawingUnlocked, hget]

theorem unsubscribe_removes_all_handlers_witness :
    (((initState : ClientState Nat).subscriptions).map Prod.fst).Nodup
    ∧ (mapGet ((WebSocketClient.unsubscribeDrawing
          ((WebSocketClient.subscribeDrawing
            ((WebSocketClient.subscribeDrawing (initState : ClientState Nat)
              "D" 1).1) "D" 2).1)
          "D").1).subscriptions "D" = none
      ∧ (WebSocketClient.onDrawingLocked
          ((WebSocketClient.unsubscribeDrawing
            ((WebSocketClient.subscribeDrawing
              ((WebSocketClient.subscribeDrawing (initState : ClientState Nat)
                "D" 1).1) "D" 2).1)
            "D").1) "D" "u").2 = []
      ∧ (WebSocketClient.onDrawingUnlocked
          ((WebSocketClient.unsubscribeDrawing
            ((WebSocketClient.subscribeDrawing
              ((WebSocketClient.subscribeDrawing (initState : ClientState Nat)
                "D" 1).1) "D" 2).1)
            "D").1) "D").2 = []) :=
  ⟨by decide,
    unsubscribe_removes_all_handlers (initState : ClientState Nat)
      "D" "u" 1 2 (by decide)⟩

/-- C6: after a `disconnect()` call on any reachable client state,
`isConnected()` returns false and the subscription registry is empty; and
when the client is already disconnected (the socket handle is absent),
`disconnect()` changes nothing and performs no outbound action. -/
theorem disconnect_clears_connection_and_registry {H : Type}
    (s : ClientState H) (hr : Reachable s) :
    WebSocketClient.isConnected (WebSocketClient.disconnect s).1 = false
    ∧ (WebSocketClient.disconnect s).1.subscriptions = []
    ∧ (s.socket = none → WebSocketClient.disconnect s = (s, [])) := by
  have hinv := reachable_socketInv s hr
  obtain ⟨sock, subs⟩ := s
  cases sock with
  | some sk =>
      refine ⟨rfl, rfl, ?_⟩
      intro hn
      exact Option.noConfusion hn
  | none =>
      have hsubs : subs = [] := hinv rfl
      subst hsubs
      exact ⟨rfl, rfl, fun _ => rfl⟩

theorem disconnect_clears_connection_and_registry_witness :
    Reachable (initState : ClientState Nat)
    ∧ (WebSocketClient.isConnected
          (WebSocketClient.disconnect (initState : ClientState Nat)).1 = false
      ∧ (WebSocketClient.disconnect
          (initState : ClientState Nat)).1.subscriptions = []
      ∧ ((initState : ClientState Nat).socket = none →
          WebSocketClient.disconnect (initState : ClientState Nat)
            = ((initState : ClientState Nat), []))) :=
  ⟨⟨[], rfl⟩,
    disconnect_clears_connection_and_registry (initState : ClientState Nat)
      ⟨[], rfl⟩⟩

/-- C7 counterexample: with a live socket handle and no subscribers at
all, `unsubscribeDrawing("D")` is not free of effects; it still emits an
`unsubscribe_drawing` message to the server, so the call is not a complete
no-op as claimed. -/
theorem unsubscribe_absent_still_emits :
    mapGet ((⟨some ⟨true⟩, []⟩ : ClientState Nat)).subscriptions "D" = none
    ∧ (WebSocketClient.unsubscribeDrawing
        (⟨some ⟨true⟩, []⟩ : ClientState Nat) "D").2 ≠ [] := by
  decide

/-- C7 amended: for a drawing id with no registry entry,
`unsubscribeDrawing` raises no error and leaves the client state (socket
handle and registry) unchanged; however, it still emits an
`unsubscribe_drawing` notification to the server whenever a socket handle
exists (and emits nothing when the handle is absent). -/
theorem unsubscribe_absent_keeps_state {H : Type} (s : ClientState H)
    (d : String) (hnone : mapGet s.subscriptions d = none) :
    (WebSocketClient.unsubscribeDrawing s d).1 = s
    ∧ (WebSocketClient.unsubscribeDrawing s d).2
      = (match s.socket with
         | some _ => [Action.emit "unsubscribe_drawing" d]
         | none => []) := by
  obtain ⟨sock, subs⟩ := s
  refine ⟨?_, rfl⟩
  show ({ socket := sock, subscriptions := mapDelete subs d } :
    ClientState H) = ⟨sock, subs⟩
  rw [mapDelete_of_get_none subs d hnone]

theorem unsubscribe_absent_keeps_state_witness :
    mapGet ((⟨some ⟨false⟩, [("E", [7])]⟩ : ClientState Nat)).subscriptions
        "D" = none
    ∧ (WebSocketClient.unsubscribeDrawing
          (⟨some ⟨false⟩, [("E", [7])]⟩ : ClientState Nat) "D").1
        = (⟨some ⟨false⟩, [("E", [7])]⟩ : ClientState Nat)
    ∧ (WebSocketClient.unsubscribeDrawing
          (⟨some ⟨false⟩, [("E", [7])]⟩ : ClientState Nat) "D").2
        = [Action.emit "unsubscribe_drawing" "D"] :=
  ⟨by decide,
    (unsubscribe_absent_keeps_state
      (⟨some ⟨false⟩, [("E", [7])]⟩ : ClientState Nat) "D" (by decide)).1,
    (unsubscribe_absent_keeps_state
      (⟨some ⟨false⟩, [("E", [7])]⟩ : ClientState Nat) "D" (by decide)).2⟩

/-- C9: `subscribeDrawing` performs no deduplication: subscribing the same
handler twice to a drawing id that previously had no entry leaves the
handler twice in the registry list, and a single dispatched locked event
for that id invokes it twice. -/
theorem subscribe_does_not_deduplicate {H : Type} (s : ClientState H)
    (d u : String) (h : H) (hnone : mapGet s.subscriptions d = none) :
    mapGet ((WebSocketClient.subscribeDrawing
        ((WebSocketClient.subscribeDrawing s d h).1) d h).1).subscriptions d
      = some [h, h]
    ∧ (WebSocketClient.onDrawingLocked
        ((WebSocketClient.subscribeDrawing
          ((WebSocketClient.subscribeDrawing s d h).1) d h).1) d u).2
      = [(h, ⟨EvType.locked, d, some u⟩), (h, ⟨EvType.locked, d, some u⟩)] := by
  have g1 : mapGet ((WebSocketClient.subscribeDrawing s d h).1).subscriptions
      d = some [h] := by
    rw [subscribeDrawing_subscriptions]
    have hreg := mapGet_registerHandler s.subscriptions d h
    rw [hnone] at hreg
    simpa using hreg
  have g2 : mapGet ((WebSocketClient.subscribeDrawing
      ((WebSocketClient.subscribeDrawing s d h).1) d h).1).subscriptions d
      = some [h, h] := by
    rw [subscribeDrawing_subscriptions]
    have hreg := mapGet_registerHandler
      ((WebSocketClient.subscribeDrawing s d h).1).subscriptions d h
    rw [g1] at hreg
    simpa using hreg
  refine ⟨g2, ?_⟩
  simp [WebSocketClient.onDrawingLocked, g2]

theorem subscribe_does_not_deduplicate_witness :
    mapGet ((initState : ClientState Nat)).subscriptions "D" = none
    ∧ (mapGet ((WebSocketClient.subscribeDrawing
          ((WebSocketClient.subscribeDrawing (initState : ClientState Nat)
            "D" 3).1) "D" 3).1).subscriptions "D" = some [3, 3]
      ∧ (WebSocketClient.onDrawingLocked
          ((WebSocketClient.subscribeDrawing
            ((WebSocketClient.subscribeDrawing (initState : ClientState Nat)
              "D" 3).1) "D" 3).1) "D" "alice").2
        = [(3, ⟨EvType.locked, "D", some "alice"⟩),
            (3, ⟨EvType.locked, "D", some "alice"⟩)]) :=
  ⟨rfl, subscribe_does_not_deduplicate (initState : ClientState Nat)
    "D" "alice" 3 rfl⟩

/-- C10: in every state reachable from the initial state by client calls
and transport connectivity events, an absent socket handle implies an
empty subscription registry (so a non-empty registry implies a handle
exists). -/
theorem null_socket_implies_empty_registry {H : Type} (ops : List (Op H))
    (hnull : (runOps ops).socket = none) :
    (runOps ops).subscriptions = [] :=
  socketInv_foldl ops initState (fun _ => rfl) hnull

theorem null_socket_implies_empty_registry_witness :
    (runOps ([] : List (Op Nat))).socket = none
    ∧ (runOps ([] : List (Op Nat))).subscriptions = [] :=
  ⟨rfl, null_socket_implies_empty_registry [] rfl⟩

end DrawingWS
